import Mathlib

/-
Verification of the TexTable renderer (tex_table/tex_table.py).
A shallow embedding of the class state and its operations: the table,
row/column indices and significance matrix are lists of strings (the
constructor immediately validates, and validation coerces every cell to
str), option values are modelled by a dynamic Python-value type, and every
mutating method is embedded as a state-passing function returning the new
state together with an optional raised error.
-/

/-- Dynamic Python value, covering the value types the option dictionary and
the setters handle: int, bool, float and str. Floats are modelled as exact
rationals. -/
inductive PyVal where
  | int (n : ℤ)
  | bool (b : Bool)
  | float (q : ℚ)
  | str (s : String)
deriving DecidableEq

/-- Numeric content of a value, mirroring that Python compares bool, int and
float numerically (True == 1, 1 == 1.0) while str never equals a number. -/
def pyNum : PyVal → Option ℚ
  | .int n => some (n : ℚ)
  | .bool b => some (cond b 1 0)
  | .float q => some q
  | .str _ => none

/-- Python equality between two values. -/
def pyEq (a b : PyVal) : Bool :=
  match pyNum a, pyNum b with
  | some x, some y => decide (x = y)
  | _, _ =>
    match a, b with
    | .str s, .str t => s == t
    | _, _ => false

/-- Python truthiness of a value. -/
def pyTruthy : PyVal → Bool
  | .int n => decide (n ≠ 0)
  | .bool b => b
  | .float q => decide (q ≠ 0)
  | .str s => s ≠ ("")

/-- Python membership test v in tup, where tup is a tuple of values. -/
def pyMem (v : PyVal) (tup : List PyVal) : Bool :=
  tup.any (fun w => pyEq v w)

/-- type(v) == int; note type(True) is bool, not int. -/
def isInt : PyVal → Bool
  | .int _ => true
  | _ => false

/-- type(v) == str. -/
def isStr : PyVal → Bool
  | .str _ => true
  | _ => false

/-- v in (True, False); note Python treats 1 == True and 0 == False. -/
def boolPair (v : PyVal) : Bool :=
  pyEq v (.bool true) || pyEq v (.bool false)

/-- Underlying string of a value, with a default (used only where
validation has already guaranteed a str). -/
def asStr (v : PyVal) (d : String) : String :=
  match v with
  | .str s => s
  | _ => d

/-- Underlying int of a value, with a default (used only where validation
has already guaranteed an int). -/
def asInt (v : PyVal) (d : ℤ) : ℤ :=
  match v with
  | .int n => n
  | _ => d

/-! ### Character-list string helpers (Python str operations) -/

/-- Whether the first list is an initial segment of the second. -/
def leadsWith : List Char → List Char → Bool
  | [], _ => true
  | _ :: _, [] => false
  | a :: as, b :: bs => a == b && leadsWith as bs

/-- Substring test over character lists: Python sub in s. -/
def hasSubList (needle : List Char) : List Char → Bool
  | [] => needle.isEmpty
  | c :: rest => leadsWith needle (c :: rest) || hasSubList needle rest

/-- Python sub in s on strings. -/
def strContains (s sub : String) : Bool :=
  hasSubList sub.data s.data

/-- Python s.endswith(suf). -/
def strEndsWith (s suf : String) : Bool :=
  leadsWith suf.data.reverse s.data.reverse

/-- Python s[:-1]. -/
def dropLastChar (s : String) : String :=
  String.mk s.data.dropLast

/-- Python s.replace with a two-pipe pattern: every occurrence of two
consecutive pipes is replaced by one, scanning left to right. -/
def collapseChars : List Char → List Char
  | '|' :: '|' :: rest => '|' :: collapseChars rest
  | c :: rest => c :: collapseChars rest
  | [] => []

/-- s.replace applied to a whole string. -/
def collapsePipes (s : String) : String :=
  String.mk (collapseChars s.data)

/-- Python s.replace with an underscore pattern: every underscore becomes a
backslash followed by an underscore. -/
def escChars : List Char → List Char
  | [] => []
  | '_' :: rest => '\\' :: '_' :: escChars rest
  | c :: rest => c :: escChars rest

/-- Global underscore escaping of a string. -/
def escapeUnderscores (s : String) : String :=
  String.mk (escChars s.data)

/-- Python str * n (string repetition). -/
def strRepeat (s : String) : ℕ → String
  | 0 => ""
  | n + 1 => s ++ strRepeat s n

/-- Concatenation of a list of strings. -/
def catStrings : List String → String
  | [] => ""
  | s :: rest => s ++ catStrings rest

/-- Python sep.join with the cell separator of the renderer. -/
def interAmp : List String → String
  | [] => ""
  | [s] => s
  | s :: t :: rest => s ++ (" & ") ++ interAmp (t :: rest)

/-- List map that also passes the position, used to model indexed loops. -/
def mapWithIdx {α β : Type} (f : ℕ → α → β) : ℕ → List α → List β
  | _, [] => []
  | i, a :: as => f i a :: mapWithIdx f (i + 1) as

/-! ### Numeric-string parsing (Python float() and int() on str) -/

/-- Value of a digit list read in base ten. -/
def digitsVal (cs : List Char) : ℕ :=
  cs.foldl (fun a c => 10 * a + (c.toNat - 48)) 0

/-- Whether a character list is nonempty and all decimal digits. -/
def allDigits (cs : List Char) : Bool :=
  !cs.isEmpty && cs.all Char.isDigit

/-- Strip an optional leading sign; returns (isNegative, rest). -/
def stripSign : List Char → Bool × List Char
  | '-' :: rest => (true, rest)
  | '+' :: rest => (false, rest)
  | cs => (false, cs)

/-- Python-style whitespace trim on a character list. -/
def trimChars (cs : List Char) : List Char :=
  ((cs.dropWhile Char.isWhitespace).reverse.dropWhile Char.isWhitespace).reverse

/-- Split a character list on a single separator character, mirroring
Python str.split with one separator. -/
def splitList (sep : Char) : List Char → List (List Char)
  | [] => [[]]
  | c :: rest =>
    let r := splitList sep rest
    if c == sep then [] :: r
    else
      match r with
      | [] => [[c]]
      | h :: t => (c :: h) :: t

/-- Mantissa of a float literal: digits, digits.digits, digits., or .digits.
The value is built with Rat.divInt directly so that it evaluates by kernel
reduction. -/
def parseMant (cs : List Char) : Option ℚ :=
  match splitList '.' cs with
  | [a] => if allDigits a then some (Rat.divInt (Int.ofNat (digitsVal a)) 1) else none
  | [a, b] =>
    if a.all Char.isDigit && b.all Char.isDigit && (!a.isEmpty || !b.isEmpty) then
      some (Rat.divInt (Int.ofNat (digitsVal a * 10 ^ b.length + digitsVal b))
        (Int.ofNat (10 ^ b.length)))
    else none
  | _ => none

/-- Exponent of a float literal: optional sign then digits. -/
def parseExp (cs : List Char) : Option ℤ :=
  let (neg, r) := stripSign cs
  if allDigits r then some (if neg then -((digitsVal r : ℕ) : ℤ) else ((digitsVal r : ℕ) : ℤ))
  else none

/-- Scale a rational by an integer power of ten. -/
def mulPow10 (q : ℚ) (ex : ℤ) : ℚ :=
  if 0 ≤ ex then Rat.divInt (q.num * Int.ofNat (10 ^ ex.toNat)) (Int.ofNat q.den)
  else Rat.divInt q.num (Int.ofNat (q.den * 10 ^ (-ex).toNat))

/-- Python float(s) on a decimal literal: optional surrounding whitespace,
optional sign, mantissa, optional exponent. Special spellings (inf, nan,
underscore separators) are not modelled; no claim touches them. -/
def parsePyFloat (s : String) : Option ℚ :=
  let t := trimChars s.data
  let (neg, r) := stripSign t
  let r := r.map (fun c => if c == ('E') then ('e') else c)
  match splitList 'e' r with
  | [m] => (parseMant m).map (fun q => if neg then Rat.neg q else q)
  | [m, e] =>
    match parseMant m, parseExp e with
    | some q, some ex => some (mulPow10 (if neg then Rat.neg q else q) ex)
    | _, _ => none
  | _ => none

/-- Python int(s) on a str: optional whitespace/sign then digits only. -/
def parsePyIntStr (s : String) : Option ℤ :=
  let t := trimChars s.data
  let (neg, r) := stripSign t
  if allDigits r then some (if neg then -((digitsVal r : ℕ) : ℤ) else ((digitsVal r : ℕ) : ℤ))
  else none

/-- Truncation of a rational toward zero, as Python int(float) does. -/
def ratTrunc (q : ℚ) : ℤ :=
  if 0 ≤ q.num then q.floor else -(Rat.neg q).floor

/-- Python int(v) on a dynamic value; none models the coercion raising. -/
def pyToInt : PyVal → Option ℤ
  | .int n => some n
  | .bool b => some (cond b 1 0)
  | .float q => some (ratTrunc q)
  | .str s => parsePyIntStr s

/-! ### Rounding and float repr (TexTable.__round helpers) -/

/-- Round-half-to-even of a rational to an integer, as Python round()
does at the midpoint. The fractional part r = x - floor x is compared with
one half through integers: r < 1/2 iff 2*(num - floor*den) < den. -/
def halfEvenZ (x : ℚ) : ℤ :=
  let f := x.floor
  let twice := 2 * (x.num - f * Int.ofNat x.den)
  if twice < Int.ofNat x.den then f
  else if Int.ofNat x.den < twice then f + 1
  else if f % 2 = 0 then f else f + 1

/-- Python round(x, n) for n ≥ 0, on exact rationals (binary floating
point representation artifacts are not modelled). -/
def pyRoundQ (x : ℚ) (n : ℕ) : ℚ :=
  Rat.divInt (halfEvenZ (mulPow10 x (Int.ofNat n))) (Int.ofNat (10 ^ n))

/-- Left-pad a string with zeros to the given length. -/
def padZeros (s : String) (k : ℕ) : String :=
  String.mk (List.replicate (k - s.length) '0') ++ s

/-- Python str(float) for a rational that terminates in at most maxd
decimal places: shortest decimal digits, always at least one fractional
digit (str(2.0) is the digit two, a point and a zero). -/
def qDecRepr (q : ℚ) (maxd : ℕ) : String :=
  let a := if q.num < 0 then Rat.neg q else q
  let k := (((List.range (maxd + 1)).find? (fun k => (mulPow10 a (Int.ofNat k)).den == 1)).getD maxd)
  let m := (mulPow10 a (Int.ofNat k)).num.toNat
  let ip := m / 10 ^ k
  let fp := m % 10 ^ k
  let frac := if k = 0 then ("0") else padZeros (toString fp) k
  (if q.num < 0 then ("-") else ("")) ++ toString ip ++ (".") ++ frac

/-! ### The TexTable state -/

/-- The option dictionary of a TexTable. The key set is fixed at
construction (set_option never adds keys), so it is modelled as a record
with one dynamically typed field per key. -/
structure Options where
  align : PyVal
  measure : PyVal
  hline : PyVal
  vline : PyVal
  box : PyVal
  row_index : PyVal
  bold_row_index : PyVal
  row_index_start : PyVal
  col_index : PyVal
  bold_col_index : PyVal
  col_index_start : PyVal
  round : PyVal
  make_ints : PyVal
  tab_indent : PyVal
  sig_char : PyVal
deriving DecidableEq

/-- The defaults installed by the constructor. -/
def defaultOptions : Options where
  align := .str ("c")
  measure := .str ("1cm")
  hline := .str ("all")
  vline := .str ("all")
  box := .str ("all")
  row_index := .bool true
  bold_row_index := .bool true
  row_index_start := .int 1
  col_index := .bool true
  bold_col_index := .bool true
  col_index_start := .int 1
  round := .int (-1)
  make_ints := .bool true
  tab_indent := .int 4
  sig_char := .str ("*")

/-- Update of the option dictionary at a key; none models an unknown key
(which set_option only warns about). -/
def Options.setKey (o : Options) (k : String) (v : PyVal) : Option Options :=
  if k == ("align") then some { o with align := v }
  else if k == ("measure") then some { o with measure := v }
  else if k == ("hline") then some { o with hline := v }
  else if k == ("vline") then some { o with vline := v }
  else if k == ("box") then some { o with box := v }
  else if k == ("row_index") then some { o with row_index := v }
  else if k == ("bold_row_index") then some { o with bold_row_index := v }
  else if k == ("row_index_start") then some { o with row_index_start := v }
  else if k == ("col_index") then some { o with col_index := v }
  else if k == ("bold_col_index") then some { o with bold_col_index := v }
  else if k == ("col_index_start") then some { o with col_index_start := v }
  else if k == ("round") then some { o with round := v }
  else if k == ("make_ints") then some { o with make_ints := v }
  else if k == ("tab_indent") then some { o with tab_indent := v }
  else if k == ("sig_char") then some { o with sig_char := v }
  else none

/-- The instance state: grid, indices and significance matrix hold their
post-astype(str) string contents (validation runs in the constructor, so
every reachable state is string-typed). -/
structure TexTable where
  table : List (List String)
  row_index : List String
  col_index : List String
  sig : List (List String)
  options : Options
deriving DecidableEq

/-- One constructor per raise site of the source (all are ValueError in
Python, except the TypeError from a substring test on a non-str box and
the IndexError from the significance-matrix lookup). -/
inductive Err where
  | valueHline
  | valueVline
  | valueBox
  | boxTypeError
  | rowLenMismatch
  | boldRowInvalid
  | rowStartInvalid
  | colLenMismatch
  | boldColInvalid
  | colStartInvalid
  | roundInvalid
  | makeIntsInvalid
  | tabIndentInvalid
  | sigCharInvalid
  | invalidDimension
  | indexError
deriving DecidableEq

instance {e a : Type} [DecidableEq e] [DecidableEq a] : DecidableEq (Except e a) := fun x y =>
  match x, y with
  | .ok u, .ok v =>
    if h : u = v then isTrue (by rw [h]) else isFalse (by intro hc; cases hc; exact h rfl)
  | .error u, .error v =>
    if h : u = v then isTrue (by rw [h]) else isFalse (by intro hc; cases hc; exact h rfl)
  | .ok _, .error _ => isFalse (by intro hc; cases hc)
  | .error _, .ok _ => isFalse (by intro hc; cases hc)

/-- numpy shape[1] of the grid: column count read off the first row. -/
def ncolsOf (g : List (List String)) : ℕ :=
  (g.headD []).length

namespace TexTable

/-- Sequencing of validation steps: a raise aborts with the state at the
raise point, mirroring Python exception propagation out of a mutating
method. -/
def andThen (r : TexTable × Option Err) (f : TexTable → TexTable × Option Err) :
    TexTable × Option Err :=
  match r with
  | (t, none) => f t
  | (t, some e) => (t, some e)

/-- hline must be one of all, header, none. -/
def checkHline (t : TexTable) : TexTable × Option Err :=
  if pyMem t.options.hline [.str ("all"), .str ("header"), .str ("none")] then (t, none)
  else (t, some .valueHline)

/-- vline must be one of all, index, none. -/
def checkVline (t : TexTable) : TexTable × Option Err :=
  if pyMem t.options.vline [.str ("all"), .str ("index"), .str ("none")] then (t, none)
  else (t, some .valueVline)

/-- box must be all, none, or a string containing one of t, b, l, r; the
substring loop on a non-str box raises a TypeError. -/
def checkBox (t : TexTable) : TexTable × Option Err :=
  if pyMem t.options.box [.str ("all"), .str ("none")] then (t, none)
  else
    match t.options.box with
    | .str s =>
      if strContains s ("t") || strContains s ("b") || strContains s ("l") || strContains s ("r") then
        (t, none)
      else (t, some .valueBox)
    | _ => (t, some .boxTypeError)

/-- Row-index block: only checked when the row_index display option is
truthy; coerces a non-int row_index_start in place. -/
def checkRowBlock (t : TexTable) : TexTable × Option Err :=
  if pyTruthy t.options.row_index then
    if t.row_index.length ≠ t.table.length then (t, some .rowLenMismatch)
    else if !boolPair t.options.bold_row_index then (t, some .boldRowInvalid)
    else if isInt t.options.row_index_start then (t, none)
    else
      match pyToInt t.options.row_index_start with
      | some n => ({ t with options := { t.options with row_index_start := .int n } }, none)
      | none => (t, some .rowStartInvalid)
  else (t, none)

/-- Column-index block, symmetric to the row block. -/
def checkColBlock (t : TexTable) : TexTable × Option Err :=
  if pyTruthy t.options.col_index then
    if t.col_index.length ≠ ncolsOf t.table then (t, some .colLenMismatch)
    else if !boolPair t.options.bold_col_index then (t, some .boldColInvalid)
    else if isInt t.options.col_index_start then (t, none)
    else
      match pyToInt t.options.col_index_start with
      | some n => ({ t with options := { t.options with col_index_start := .int n } }, none)
      | none => (t, some .colStartInvalid)
  else (t, none)

/-- round coercion; the make_ints check sits inside the non-int branch in
the source, so it only runs when round needed coercion. -/
def checkRound (t : TexTable) : TexTable × Option Err :=
  if isInt t.options.round then (t, none)
  else
    match pyToInt t.options.round with
    | none => (t, some .roundInvalid)
    | some n =>
      let t2 : TexTable := { t with options := { t.options with round := .int n } }
      if !boolPair t2.options.make_ints then (t2, some .makeIntsInvalid)
      else (t2, none)

/-- tab_indent coercion. -/
def checkTab (t : TexTable) : TexTable × Option Err :=
  if isInt t.options.tab_indent then (t, none)
  else
    match pyToInt t.options.tab_indent with
    | some n => ({ t with options := { t.options with tab_indent := .int n } }, none)
    | none => (t, some .tabIndentInvalid)

/-- sig_char must be a str (length one is only warned about). -/
def checkSigChar (t : TexTable) : TexTable × Option Err :=
  if isStr t.options.sig_char then (t, none)
  else (t, some .sigCharInvalid)

/-- TexTable.__validate on a post-construction state. The table/index
re-stringification and flattening steps are identities here because the
embedded state is already string-typed and flat; the align and measure
checks only emit warnings and never touch state, so they are omitted; the
raising checks follow in source order. -/
def validate (t : TexTable) : TexTable × Option Err :=
  andThen (checkHline t) fun t =>
  andThen (checkVline t) fun t =>
  andThen (checkBox t) fun t =>
  andThen (checkRowBlock t) fun t =>
  andThen (checkColBlock t) fun t =>
  andThen (checkRound t) fun t =>
  andThen (checkTab t) fun t =>
  checkSigChar t

/-- TexTable.set_option (setOption here, as the source name is a Lean keyword): a known key is stored first and the whole object
is then re-validated (so an invalid value is retained when validation
raises); an unknown key only warns and changes nothing. -/
def setOption (t : TexTable) (k : String) (v : PyVal) : TexTable × Option Err :=
  match t.options.setKey k v with
  | some o => validate { t with options := o }
  | none => (t, none)

/-- TexTable.set_options (setOptions here): every known pair is stored (unknown keys warn and
are skipped), then a single validation runs. -/
def setOptions (t : TexTable) (opts : List (String × PyVal)) : TexTable × Option Err :=
  let t2 := opts.foldl
    (fun acc kv =>
      match acc.options.setKey kv.1 kv.2 with
      | some o => { acc with options := o }
      | none => acc) t
  validate t2

/-- numpy matrix transpose of the rectangular grid. -/
def transposeGrid (g : List (List String)) : List (List String) :=
  (List.range (ncolsOf g)).map (fun j => g.map (fun row => row.getD j ("")))

/-- The pure field swaps performed by TexTable.T before it re-validates:
grid transposed, index arrays swapped, row/col display flags and bold
flags swapped. The start options and the significance matrix are not
touched by the source. -/
def swapT (t : TexTable) : TexTable :=
  { t with
    table := transposeGrid t.table
    row_index := t.col_index
    col_index := t.row_index
    options := { t.options with
      row_index := t.options.col_index
      col_index := t.options.row_index
      bold_row_index := t.options.bold_col_index
      bold_col_index := t.options.bold_row_index } }

/-- TexTable.T: swap in place, then re-validate. -/
def T (t : TexTable) : TexTable × Option Err :=
  validate (swapT t)

/-- TexTable.transpose, same as T. -/
def transpose (t : TexTable) : TexTable × Option Err :=
  T t

/-- Marker accumulated for one parsed cell value: one sig_char repetition
appended per threshold the value is strictly below, in threshold order. -/
def interpSig (sigChar : String) (thresholds : List ℚ) (f : ℚ) : String :=
  catStrings (thresholds.map (fun th => if f < th then sigChar else ""))

/-- TexTable.interpret_p. The loop runs over the grid shape; for each cell
the significance entry is first reset (an out-of-range entry raises an
IndexError that the bare except swallows, leaving the old entry), then on
a successful float parse markers are appended per threshold passed. A
non-str sig_char makes the append raise, which the except also swallows
after the reset, so it behaves as the empty marker. -/
def interpret_p (t : TexTable) (reset : Bool) (thresholds : List ℚ) : TexTable :=
  { t with
    sig := mapWithIdx
      (fun i row =>
        if i < t.table.length then
          mapWithIdx
            (fun j old =>
              if j < ncolsOf t.table then
                if reset then ""
                else
                  match parsePyFloat ((t.table.getD i []).getD j ("")) with
                  | none => ""
                  | some f => interpSig (asStr t.options.sig_char ("")) thresholds f
              else old) 0 row
        else row) 0 t.sig }

end TexTable

/-- Models TexTable.__init__ for an input already convertible to a 2-D
numpy array, given by its post-astype(str) cells, with no explicit
indices: the auto indices range(start, n + start) with the default start 1
are written directly in their post-astype string form, the significance
matrix starts empty with the grid shape, defaults are installed, then each
supplied option pair goes through set_option (stopping at the first
raise, as the exception aborts the constructor), and a final validation
runs. -/
def mkTexTable (table : List (List String)) (opts : List (String × PyVal)) :
    TexTable × Option Err :=
  let r := table.length
  let c := ncolsOf table
  let t0 : TexTable :=
    { table := table
      row_index := (List.range r).map (fun i => toString (i + 1))
      col_index := (List.range c).map (fun j => toString (j + 1))
      sig := List.replicate r (List.replicate c "")
      options := defaultOptions }
  let step := fun (acc : TexTable × Option Err) (kv : String × PyVal) =>
    match acc with
    | (t, none) => TexTable.setOption t kv.1 kv.2
    | (t, some e) => (t, some e)
  match opts.foldl step (t0, none) with
  | (t, none) => TexTable.validate t
  | (t, some e) => (t, some e)

/-! ### Dimension policy of the raw constructor input -/

/-- A raw numpy array as the constructor sees it, by shape and flattened
(string-converted) data. -/
structure NpArr where
  shape : List ℕ
  data : List String
deriving DecidableEq

/-- TexTable.__validate_table: dispatch on ndim alone. A 1-D array is
reshaped to one row, a 2-D array passes, every other ndim (including 0 and
anything at least 3, squeezable or not) raises. -/
def validate_table (a : NpArr) : Except Err NpArr :=
  match a.shape with
  | [n] => .ok { shape := [1, n], data := a.data }
  | [_, _] => .ok a
  | _ => .error .invalidDimension

/-! ### The assembler (TexTable.__str__ after its validation call) -/

namespace TexTable

/-- TexTable.__round applied to one grid cell (always a numpy str scalar,
so the array .round attempt always falls through to the float path): when
the round option is a nonnegative int, parse the cell, round half-even to
the configured places, render as Python str(float), and strip a trailing
point-zero when make_ints is truthy; any parse failure leaves the cell
unchanged. -/
def roundCell (o : Options) (cell : String) : String :=
  match o.round with
  | .int n =>
    if 0 ≤ n then
      match parsePyFloat cell with
      | none => cell
      | some q =>
        let nd := n.toNat
        let s := qDecRepr (pyRoundQ q nd) nd
        if pyTruthy o.make_ints && strEndsWith s (".0") then s.dropRight 2
        else s
    else cell
  | _ => cell

/-- One data row of the output: indent, optional (possibly bold) row
label, then each cell rounded and concatenated with its significance
entry, joined by the cell separator and terminated; an hline follows when
hline is all. The significance lookup raises an IndexError when the
matrix is smaller than the grid. -/
def rowLine (t : TexTable) (indent : String) (i : ℕ) : Except Err String := do
  let o := t.options
  let pre :=
    indent ++
      (if pyTruthy o.row_index then
        (if pyTruthy o.bold_row_index then
          ("\\textbf\x7b") ++ t.row_index.getD i ("") ++ ("\x7d & ")
        else t.row_index.getD i ("") ++ (" & "))
      else "")
  let row := t.table.getD i []
  let cells ← (List.range row.length).mapM (fun j =>
    match t.sig.get? i >>= (fun r => r.get? j) with
    | some sg => Except.ok (roundCell o (row.getD j ("")) ++ sg)
    | none => Except.error Err.indexError)
  Except.ok
    (pre ++ interAmp cells ++ (" \\\\\n") ++
      (if pyEq o.hline (.str ("all")) then indent ++ ("\\hline\n") else ""))

/-- String assembly of TexTable.__str__, on a state that has just been
validated (so the structural options are str and the numeric options int;
for other states the source would raise a TypeError mid-assembly, which no
reachable render hits). -/
def assemble (t : TexTable) : Except Err String := do
  let o := t.options
  let box := asStr o.box ("")
  let align := asStr o.align ("")
  let measure := asStr o.measure ("")
  let indent := String.mk (List.replicate (asInt o.tab_indent 0).toNat ' ')
  let s := ("\nTable:\n\n\\begin\x7btabular\x7d\x7b")
  let s := if strContains box ("l") || box == ("all") then s ++ ("|") else s
  let col_code := align
  let col_code :=
    if align == ("p") || align == ("m") then col_code ++ ("\x7b") ++ measure ++ ("\x7d")
    else col_code
  let col_code := if pyEq o.vline (.str ("all")) then col_code ++ ("|") else col_code
  let s :=
    if pyTruthy o.row_index then
      let s := s ++ col_code
      if pyEq o.vline (.str ("index")) || pyEq o.vline (.str ("all")) then s ++ ("|") else s
    else s
  let s := s ++ strRepeat col_code (ncolsOf t.table)
  let s := collapsePipes s
  let s :=
    if strContains box ("r") || box == ("all") then
      let s := s ++ ("|")
      if strEndsWith s ("||") then dropLastChar s else s
    else if strEndsWith s ("|") then dropLastChar s
    else s
  let s := s ++ ("\x7d\n")
  let s :=
    if strContains box ("t") || box == ("all") then s ++ indent ++ ("\\hline\n") else s
  let s :=
    if pyTruthy o.col_index then
      let s := s ++ indent
      let s := if pyTruthy o.row_index then s ++ (" & ") else s
      let jl :=
        if pyTruthy o.bold_col_index then
          t.col_index.map (fun i => ("\\textbf\x7b") ++ i ++ ("\x7d"))
        else t.col_index
      let s := s ++ interAmp jl ++ (" \\\\\n")
      if pyEq o.hline (.str ("header")) || pyEq o.hline (.str ("all")) then
        s ++ indent ++ ("\\hline\n")
      else s
    else s
  let body ← (List.range t.table.length).mapM (rowLine t indent)
  let s := s ++ catStrings body
  let s :=
    if strContains box ("b") || box == ("all") then
      if strEndsWith s ("\\hline\n") then s else s ++ indent ++ ("\\hline\n")
    else s
  let s := s ++ ("\\end\x7btabular\x7d\n")
  Except.ok (escapeUnderscores s)

/-- str(t): validate (possibly mutating or raising), then assemble. The
returned pair is the post-call state and either the rendered string or the
raised error. -/
def render (t : TexTable) : TexTable × Except Err String :=
  match validate t with
  | (t2, none) => (t2, assemble t2)
  | (t2, some e) => (t2, .error e)

end TexTable

/-! ### Valid states and validation lemmas -/

/-- A well-formed table state: nonempty rectangular grid, structural
options in their domains, index lengths matching whenever the matching
display flag is truthy, and the four numeric options already genuine ints
(so validation performs no in-place coercion). All validation-passing
states reachable without storing a still-uncoerced numeric option satisfy
this. -/
def validState (t : TexTable) : Bool :=
  decide (0 < t.table.length) &&
  decide (0 < ncolsOf t.table) &&
  t.table.all (fun row => decide (row.length = ncolsOf t.table)) &&
  pyMem t.options.hline [.str ("all"), .str ("header"), .str ("none")] &&
  pyMem t.options.vline [.str ("all"), .str ("index"), .str ("none")] &&
  (pyMem t.options.box [.str ("all"), .str ("none")] ||
    (match t.options.box with
     | .str s => strContains s ("t") || strContains s ("b") || strContains s ("l") || strContains s ("r")
     | _ => false)) &&
  (!pyTruthy t.options.row_index ||
    (decide (t.row_index.length = t.table.length) && boolPair t.options.bold_row_index)) &&
  (!pyTruthy t.options.col_index ||
    (decide (t.col_index.length = ncolsOf t.table) && boolPair t.options.bold_col_index)) &&
  isInt t.options.row_index_start &&
  isInt t.options.col_index_start &&
  isInt t.options.round &&
  isInt t.options.tab_indent &&
  isStr t.options.sig_char

namespace TexTable

theorem checkHline_ok (t : TexTable)
    (h : pyMem t.options.hline [.str ("all"), .str ("header"), .str ("none")] = true) :
    checkHline t = (t, none) := by
  simp [checkHline, h]

theorem checkVline_ok (t : TexTable)
    (h : pyMem t.options.vline [.str ("all"), .str ("index"), .str ("none")] = true) :
    checkVline t = (t, none) := by
  simp [checkVline, h]

theorem checkBox_ok (t : TexTable)
    (h : (pyMem t.options.box [.str ("all"), .str ("none")] ||
      (match t.options.box with
       | .str s => strContains s ("t") || strContains s ("b") || strContains s ("l") || strContains s ("r")
       | _ => false)) = true) :
    checkBox t = (t, none) := by
  rw [Bool.or_eq_true] at h
  unfold checkBox
  rcases h with h | h
  · simp [h]
  · rcases hb : t.options.box with n | b | q | s <;> rw [hb] at h <;> simp_all

theorem checkRowBlock_ok (t : TexTable)
    (himp : (!pyTruthy t.options.row_index ||
      (decide (t.row_index.length = t.table.length) && boolPair t.options.bold_row_index)) = true)
    (hint : isInt t.options.row_index_start = true) :
    checkRowBlock t = (t, none) := by
  unfold checkRowBlock
  cases hf : pyTruthy t.options.row_index
  · simp [hf]
  · rw [hf] at himp
    simp only [Bool.not_true, Bool.false_or, Bool.and_eq_true, decide_eq_true_eq] at himp
    obtain ⟨hlen, hbold⟩ := himp
    simp [hlen, hbold, hint]

theorem checkColBlock_ok (t : TexTable)
    (himp : (!pyTruthy t.options.col_index ||
      (decide (t.col_index.length = ncolsOf t.table) && boolPair t.options.bold_col_index)) = true)
    (hint : isInt t.options.col_index_start = true) :
    checkColBlock t = (t, none) := by
  unfold checkColBlock
  cases hf : pyTruthy t.options.col_index
  · simp [hf]
  · rw [hf] at himp
    simp only [Bool.not_true, Bool.false_or, Bool.and_eq_true, decide_eq_true_eq] at himp
    obtain ⟨hlen, hbold⟩ := himp
    simp [hlen, hbold, hint]

theorem checkRound_ok (t : TexTable) (h : isInt t.options.round = true) :
    checkRound t = (t, none) := by
  simp [checkRound, h]

theorem checkTab_ok (t : TexTable) (h : isInt t.options.tab_indent = true) :
    checkTab t = (t, none) := by
  simp [checkTab, h]

theorem checkSigChar_ok (t : TexTable) (h : isStr t.options.sig_char = true) :
    checkSigChar t = (t, none) := by
  simp [checkSigChar, h]

/-- On a validState table, validation passes and performs no mutation. -/
theorem validate_of_validState (t : TexTable) (h : validState t = true) :
    validate t = (t, none) := by
  simp only [validState, Bool.and_eq_true] at h
  obtain ⟨⟨⟨⟨⟨⟨⟨⟨⟨⟨⟨⟨h1, h2⟩, h3⟩, h4⟩, h5⟩, h6⟩, h7⟩, h8⟩, h9⟩, h10⟩, h11⟩, h12⟩, h13⟩ := h
  simp only [validate, andThen, checkHline_ok t h4, checkVline_ok t h5, checkBox_ok t h6,
    checkRowBlock_ok t h7 h9, checkColBlock_ok t h8 h10, checkRound_ok t h11,
    checkTab_ok t h12, checkSigChar_ok t h13]

theorem transposeGrid_length (g : List (List String)) :
    (transposeGrid g).length = ncolsOf g := by
  simp [transposeGrid]

theorem transposeGrid_row_length (g : List (List String)) (row : List String)
    (hm : row ∈ transposeGrid g) : row.length = g.length := by
  simp only [transposeGrid, List.mem_map, List.mem_range] at hm
  obtain ⟨j, hj, rfl⟩ := hm
  simp

theorem ncolsOf_transposeGrid (g : List (List String)) (h : 0 < ncolsOf g) :
    ncolsOf (transposeGrid g) = g.length := by
  rcases hnc : ncolsOf g with _ | m
  · omega
  · rw [transposeGrid, hnc, List.range_succ_eq_map, List.map_cons]
    simp [ncolsOf]

theorem transposeGrid_getElem (g : List (List String)) (i : ℕ)
    (hi : i < (transposeGrid g).length) :
    (transposeGrid g)[i] = g.map (fun row => row.getD i ("")) := by
  simp only [transposeGrid] at hi ⊢
  rw [List.getElem_map, List.getElem_range]

theorem transposeGrid_transposeGrid (g : List (List String))
    (hrect : ∀ row ∈ g, row.length = ncolsOf g)
    (hc : 0 < ncolsOf g) :
    transposeGrid (transposeGrid g) = g := by
  have hlen2 : (transposeGrid (transposeGrid g)).length = g.length := by
    rw [transposeGrid_length, ncolsOf_transposeGrid g hc]
  apply List.ext_getElem hlen2
  intro i hi1 hi2
  rw [transposeGrid_getElem _ i hi1]
  have hglen : g[i].length = ncolsOf g := hrect _ (List.getElem_mem hi2)
  apply List.ext_getElem
  · rw [List.length_map, transposeGrid_length, hglen]
  · intro j hj1 hj2
    rw [List.length_map, transposeGrid_length] at hj1
    have hjt : j < (transposeGrid g).length := by
      rw [transposeGrid_length]
      exact hj1
    rw [List.getElem_map]
    rw [transposeGrid_getElem _ j hjt]
    rw [List.getD_eq_getElem _ _ (by simpa using hi2)]
    rw [List.getElem_map]
    exact List.getD_eq_getElem _ _ hj2

/-- validState carries over the in-place swaps of T. -/
theorem validState_swapT (t : TexTable) (h : validState t = true) :
    validState (swapT t) = true := by
  simp only [validState, Bool.and_eq_true] at h ⊢
  obtain ⟨⟨⟨⟨⟨⟨⟨⟨⟨⟨⟨⟨h1, h2⟩, h3⟩, h4⟩, h5⟩, h6⟩, h7⟩, h8⟩, h9⟩, h10⟩, h11⟩, h12⟩, h13⟩ := h
  rw [decide_eq_true_eq] at h1 h2
  have hlen : (swapT t).table.length = ncolsOf t.table := transposeGrid_length t.table
  have hnc : ncolsOf (swapT t).table = t.table.length :=
    ncolsOf_transposeGrid t.table h2
  refine ⟨⟨⟨⟨⟨⟨⟨⟨⟨⟨⟨⟨?_, ?_⟩, ?_⟩, ?_⟩, ?_⟩, ?_⟩, ?_⟩, ?_⟩, ?_⟩, ?_⟩, ?_⟩, ?_⟩, ?_⟩
  · rw [decide_eq_true_eq, hlen]
    exact h2
  · rw [decide_eq_true_eq, hnc]
    exact h1
  · rw [List.all_eq_true]
    intro row hm
    rw [decide_eq_true_eq, hnc]
    exact transposeGrid_row_length t.table row hm
  · exact h4
  · exact h5
  · exact h6
  · show (!pyTruthy t.options.col_index ||
      (decide (t.col_index.length = (swapT t).table.length) && boolPair t.options.bold_col_index)) = true
    rw [hlen]
    exact h8
  · show (!pyTruthy t.options.row_index ||
      (decide (t.row_index.length = ncolsOf (swapT t).table) && boolPair t.options.bold_row_index)) = true
    rw [hnc]
    exact h7
  · exact h9
  · exact h10
  · exact h11
  · exact h12
  · exact h13

/-- The field swaps of T are an involution on well-formed states. -/
theorem swapT_swapT (t : TexTable) (h : validState t = true) :
    swapT (swapT t) = t := by
  simp only [validState, Bool.and_eq_true] at h
  obtain ⟨⟨⟨⟨⟨⟨⟨⟨⟨⟨⟨⟨h1, h2⟩, h3⟩, h4⟩, h5⟩, h6⟩, h7⟩, h8⟩, h9⟩, h10⟩, h11⟩, h12⟩, h13⟩ := h
  rw [decide_eq_true_eq] at h2
  rw [List.all_eq_true] at h3
  have hrect : ∀ row ∈ t.table, row.length = ncolsOf t.table := by
    intro row hm
    have := h3 row hm
    rwa [decide_eq_true_eq] at this
  rcases t with ⟨tab, ri, ci, sg, o⟩
  simp only [swapT]
  congr 1
  exact transposeGrid_transposeGrid tab hrect h2

end TexTable

/-! ### Indexed-map and marker lemmas -/

theorem empty_str_append (s : String) : ("") ++ s = s := rfl

theorem mapWithIdx_length {α β : Type} (f : ℕ → α → β) (k : ℕ) (l : List α) :
    (mapWithIdx f k l).length = l.length := by
  induction l generalizing k with
  | nil => rfl
  | cons a as ih => simp [mapWithIdx, ih]

theorem mapWithIdx_getD {α β : Type} (f : ℕ → α → β) (k : ℕ) (l : List α) (i : ℕ)
    (d : α) (e : β) (h : i < l.length) :
    (mapWithIdx f k l).getD i e = f (k + i) (l.getD i d) := by
  induction l generalizing k i with
  | nil => simp at h
  | cons a as ih =>
    cases i with
    | zero => simp [mapWithIdx]
    | succ n =>
      simp only [mapWithIdx, List.getD_cons_succ]
      rw [ih (k + 1) n (by simpa using h)]
      congr 1
      omega

theorem interpSig_eq_strRepeat (ch : String) (ths : List ℚ) (f : ℚ) :
    TexTable.interpSig ch ths f = strRepeat ch (ths.countP (fun th => decide (f < th))) := by
  induction ths with
  | nil => rfl
  | cons th rest ih =>
    simp only [TexTable.interpSig, List.map_cons, catStrings, List.countP_cons] at ih ⊢
    by_cases hc : f < th
    · rw [if_pos hc]
      simp only [decide_eq_true hc, if_true]
      rw [ih]
      rfl
    · rw [if_neg hc]
      simp only [decide_eq_false hc, if_false, Nat.add_zero]
      rw [empty_str_append]
      exact ih

/-! ### Concrete states used by the claim theorems -/

/-- TexTable([[1,2],[3,4]]) with no explicit indices or options. -/
def exT : TexTable := (mkTexTable [[("1"), ("2")], [("3"), ("4")]] []).1

/-- TexTable([[1,2,3],[4,5,6]], options=dict(row_index=False, col_index=False,
round=-1)): the concrete scenario of the spec, indices suppressed, rounding
disabled, hline/vline/box left at all. -/
def c1T : TexTable :=
  (mkTexTable [[("1"), ("2"), ("3")], [("4"), ("5"), ("6")]]
    [(("row_index"), .bool false), (("col_index"), .bool false), (("round"), .int (-1))]).1

/-- TexTable([[0.001, 0.5]]) for the significance scenario. -/
def c2T : TexTable := (mkTexTable [[("0.001"), ("0.5")]] []).1

/-- TexTable([[1,2,3],[4,5,6]]), the non-square table for the transpose
claims. -/
def c3T : TexTable :=
  (mkTexTable [[("1"), ("2"), ("3")], [("4"), ("5"), ("6")]] []).1

/-- TexTable([[1,2],[3,4]], options=dict(col_index_start=7)), giving the
two start options distinguishable values. -/
def c4T : TexTable :=
  (mkTexTable [[("1"), ("2")], [("3"), ("4")]] [(("col_index_start"), .int 7)]).1

/-- exT after set_option(row_index, False) and then
set_option(row_index_start, "3"): both calls pass validation (the start
coercion is skipped while the row display is off), leaving a str-valued
start option in a validation-passing state. -/
def c5T : TexTable :=
  (TexTable.setOption ((TexTable.setOption exT ("row_index") (.bool false)).1)
    ("row_index_start") (.str ("3"))).1

/-! ### Claim theorems -/

/-- C1 (counterexample): on input [[1,2,3],[4,5,6]] with default options
except round=-1 and both index displays disabled, render-to-string does NOT
return the string the claim gives: the actual output has a Table: preamble
before the tabular directive, a pipe-separated column specification, 4-space
indentation and an hline after every data row. -/
theorem c1_counterexample :
    (TexTable.render c1T).2 ≠
      Except.ok ("\\begin\x7btabular\x7d\x7bccc\x7d\n\\hline\n1 & 2 & 3 \\\\\n4 & 5 & 6 \\\\\n\\hline\n\\end\x7btabular\x7d\n") := by
  decide

/-- C1 (amended): for that input and option set, construction succeeds and
render-to-string returns exactly the string with the newline-Table-colon
preamble, column specification pipe c pipe c pipe c pipe (box and vline at
all), every interior line indented four spaces, and an hline after each of
the two data rows. -/
theorem c1_render_exact :
    (mkTexTable [[("1"), ("2"), ("3")], [("4"), ("5"), ("6")]]
      [(("row_index"), .bool false), (("col_index"), .bool false), (("round"), .int (-1))]).2 = none ∧
    TexTable.render c1T =
      (c1T, Except.ok ("\nTable:\n\n\\begin\x7btabular\x7d\x7b|c|c|c|\x7d\n    \\hline\n    1 & 2 & 3 \\\\\n    \\hline\n    4 & 5 & 6 \\\\\n    \\hline\n\\end\x7btabular\x7d\n")) := by
  decide

/-- C2 (counterexample): with thresholds (0.05, 0.01, 0.001), the cell with
value 0.001 receives marker double-star, not the triple-star the claim
requires (the source compares with strict less-than, so a cell equal to a
threshold does not pass it); the 0.5 cell does receive the empty marker. -/
theorem c2_counterexample :
    (TexTable.interpret_p c2T false [Rat.divInt 1 20, Rat.divInt 1 100, Rat.divInt 1 1000]).sig = [[("**"), ("")]] ∧
    ¬ (TexTable.interpret_p c2T false [Rat.divInt 1 20, Rat.divInt 1 100, Rat.divInt 1 1000]).sig = [[("***"), ("")]] := by
  decide

/-- C2 (amended): for every cell whose string parses as a number,
significance interpretation with reset disabled stores, for that cell, one
sig_char repetition per threshold the value is STRICTLY less than, iterating
in the given threshold order; a cell equal to a threshold does not collect
that threshold marker. -/
theorem c2_interpret_p_strict (t : TexTable) (ths : List ℚ) (i j : ℕ) (f : ℚ) (ch : String)
    (hi : i < t.table.length) (hj : j < ncolsOf t.table)
    (hsi : i < t.sig.length) (hsj : j < (t.sig.getD i []).length)
    (hch : t.options.sig_char = .str ch)
    (hf : parsePyFloat ((t.table.getD i []).getD j ("")) = some f) :
    ((TexTable.interpret_p t false ths).sig.getD i []).getD j ("") =
      strRepeat ch (ths.countP (fun th => decide (f < th))) := by
  simp only [TexTable.interpret_p]
  rw [mapWithIdx_getD _ 0 t.sig i ([]) ([]) hsi]
  simp only [Nat.zero_add, if_pos hi]
  rw [mapWithIdx_getD _ 0 (t.sig.getD i ([])) j ("") ("") hsj]
  simp only [Nat.zero_add, if_pos hj]
  rw [hf, hch]
  simp [asStr, interpSig_eq_strRepeat]

/-- C2 (witness): the amended claim applied to the concrete 1 by 2 table
with cells 0.001 and 0.5 and the default thresholds. -/
theorem c2_witness :
    parsePyFloat ((c2T.table.getD 0 []).getD 0 ("")) = some (Rat.divInt 1 1000) ∧
    ((TexTable.interpret_p c2T false [Rat.divInt 1 20, Rat.divInt 1 100, Rat.divInt 1 1000]).sig.getD 0 []).getD 0 ("") =
      strRepeat ("*") (List.countP (fun th => decide (Rat.divInt 1 1000 < th)) [Rat.divInt 1 20, Rat.divInt 1 100, Rat.divInt 1 1000]) := by
  have hf : parsePyFloat ((c2T.table.getD 0 []).getD 0 ("")) = some (Rat.divInt 1 1000) := by
    decide
  exact ⟨hf, c2_interpret_p_strict c2T [Rat.divInt 1 20, Rat.divInt 1 100, Rat.divInt 1 1000] 0 0 (Rat.divInt 1 1000) ("*")
    (by decide) (by decide) (by decide) (by decide) (by decide) hf⟩

/-- C3: FALSE on the code. T() transposes the grid but never touches the
significance matrix, so after transposing the 2 by 3 table the grid has 3
rows while the significance matrix still has 2, and rendering the
transposed table raises an IndexError from the significance lookup. -/
theorem c3_sig_shape_broken :
    (TexTable.T c3T).2 = none ∧
    (TexTable.T c3T).1.table.length = 3 ∧
    (TexTable.T c3T).1.sig.length = 2 ∧
    (TexTable.render ((TexTable.T c3T).1)).2 = Except.error Err.indexError := by
  decide

/-- C4 (counterexample): with col_index_start set to 7 and row_index_start
at the default 1, transposing leaves both start options where they were;
the claim would require row_index_start to become 7. -/
theorem c4_counterexample :
    (TexTable.T c4T).2 = none ∧
    c4T.options.row_index_start = .int 1 ∧
    c4T.options.col_index_start = .int 7 ∧
    (TexTable.T c4T).1.options.row_index_start = .int 1 ∧
    (TexTable.T c4T).1.options.col_index_start = .int 7 ∧
    ¬ ((TexTable.T c4T).1.options.row_index_start = .int 7 ∧
       (TexTable.T c4T).1.options.col_index_start = .int 1) := by
  decide

/-- C4 (amended): on every well-formed state, transpose succeeds in place:
it replaces the grid by its matrix transpose, swaps RowIndex with ColIndex,
swaps row_index with col_index and bold_row_index with bold_col_index, and
re-validates; it does NOT swap row_index_start with col_index_start, and it
leaves the significance matrix untouched. -/
theorem c4_transpose_effect (t : TexTable) (h : validState t = true) :
    TexTable.T t =
      ({ t with
          table := TexTable.transposeGrid t.table
          row_index := t.col_index
          col_index := t.row_index
          options := { t.options with
            row_index := t.options.col_index
            col_index := t.options.row_index
            bold_row_index := t.options.bold_col_index
            bold_col_index := t.options.bold_row_index } }, none) :=
  TexTable.validate_of_validState _ (TexTable.validState_swapT t h)

/-- C4 (witness): the amended transpose behavior at the concrete table with
distinguishable start options. -/
theorem c4_witness :
    validState c4T = true ∧
    (TexTable.T c4T).2 = none ∧
    (TexTable.T c4T).1.options.col_index_start = PyVal.int 7 := by
  have h : validState c4T = true := by decide
  have hthm := c4_transpose_effect c4T h
  rw [hthm]
  exact ⟨h, rfl, by decide⟩

/-- C5 (counterexample): a reachable validation-passing state on which
double transpose is not the identity. With the row display off,
set_option(row_index_start, "3") passes validation and stores the str.
Both transposes succeed, but re-validation during the first one coerces the
start option to the int 3 in place, so the final option state differs from
the original. -/
theorem c5_counterexample :
    (TexTable.setOption exT ("row_index") (.bool false)).2 = none ∧
    (TexTable.setOption ((TexTable.setOption exT ("row_index") (.bool false)).1)
      ("row_index_start") (.str ("3"))).2 = none ∧
    c5T.options.row_index_start = .str ("3") ∧
    (TexTable.T c5T).2 = none ∧
    (TexTable.T (TexTable.T c5T).1).2 = none ∧
    (TexTable.T (TexTable.T c5T).1).1 ≠ c5T ∧
    (TexTable.T (TexTable.T c5T).1).1.options.row_index_start = .int 3 := by
  decide

/-- C5 (amended): on every well-formed state whose start options already
hold genuine ints (as they do unless one was stored while its display flag
was off), transposing twice succeeds and restores exactly the original
grid, labels, option state and significance matrix. -/
theorem c5_double_transpose (t : TexTable) (h : validState t = true) :
    (TexTable.T t).2 = none ∧ TexTable.T ((TexTable.T t).1) = (t, none) := by
  have hb := TexTable.validState_swapT t h
  have h1 : TexTable.T t = (TexTable.swapT t, none) :=
    TexTable.validate_of_validState _ hb
  refine ⟨by rw [h1], ?_⟩
  rw [h1]
  show TexTable.T (TexTable.swapT t) = (t, none)
  have h2 : TexTable.T (TexTable.swapT t) =
      (TexTable.swapT (TexTable.swapT t), none) :=
    TexTable.validate_of_validState _ (TexTable.validState_swapT _ hb)
  rw [h2, TexTable.swapT_swapT t h]

/-- C5 (witness): double transpose restores the concrete default table. -/
theorem c5_witness :
    validState exT = true ∧ (TexTable.T exT).2 = none ∧
    TexTable.T ((TexTable.T exT).1) = (exT, none) := by
  have h : validState exT = true := by decide
  have hthm := c5_double_transpose exT h
  exact ⟨h, hthm.1, hthm.2⟩

/-- C6: FALSE on the code, which contradicts its own docstring. The
dimension dispatch accepts only ndim 1 (reshaped to one row) and ndim 2; a
3-D array all of whose dimensions beyond the second have length one is
rejected rather than squeezed, and a 0-D array is rejected rather than
promoted. -/
theorem c6_dimension_policy :
    validate_table { shape := [2, 3, 1], data := [("1"), ("2"), ("3"), ("4"), ("5"), ("6")] } =
      Except.error Err.invalidDimension ∧
    validate_table { shape := [], data := [("7")] } = Except.error Err.invalidDimension ∧
    validate_table { shape := [3], data := [("1"), ("2"), ("3")] } =
      Except.ok { shape := [1, 3], data := [("1"), ("2"), ("3")] } ∧
    validate_table { shape := [2, 3], data := [("1"), ("2"), ("3"), ("4"), ("5"), ("6")] } =
      Except.ok { shape := [2, 3], data := [("1"), ("2"), ("3"), ("4"), ("5"), ("6")] } := by
  decide

/-- C7: setting hline to any value outside all, header, none raises the
hline ValueError from the re-validation, while setting an unknown option
key only warns and returns with the entire state unchanged, never an
error. -/
theorem c7_option_rejection (t : TexTable) (v w : PyVal) (k : String)
    (hv : pyMem v [.str ("all"), .str ("header"), .str ("none")] = false)
    (hk : t.options.setKey k w = none) :
    (TexTable.setOption t ("hline") v).2 = some Err.valueHline ∧
    TexTable.setOption t k w = (t, none) := by
  constructor
  · have hset : t.options.setKey ("hline") v = some { t.options with hline := v } := rfl
    simp [TexTable.setOption, hset, TexTable.validate, TexTable.andThen, TexTable.checkHline, hv]
  · simp [TexTable.setOption, hk]

/-- C7 (witness): the rejection behavior at the concrete default table with
an invalid hline value and an unknown key. -/
theorem c7_witness :
    (TexTable.setOption exT ("hline") (.str ("banana"))).2 = some Err.valueHline ∧
    TexTable.setOption exT ("frobnicate") (.int 0) = (exT, none) :=
  c7_option_rejection exT (.str ("banana")) (.int 0) ("frobnicate") (by decide) (by decide)

/-- C8: FALSE on the code. With the round option already an int (the
default -1), setting make_ints to a non-boolean passes validation with no
error and the value is stored: the make_ints check sits inside the branch
that only runs when round is not an int. -/
theorem c8_make_ints_unchecked :
    (mkTexTable [[("1"), ("2")], [("3"), ("4")]] []).2 = none ∧
    TexTable.setOption exT ("make_ints") (.str ("banana")) =
      ({ exT with options := { exT.options with make_ints := .str ("banana") } }, none) := by
  decide

/-- C9: rendering is a pure function of the state: on every well-formed
state, str leaves the state unchanged (validation is a no-op), so a second
render returns the identical result, and neither the significance matrix
nor the grid is mutated (formatted cell values are recomputed from the
stored grid on each render). -/
theorem c9_render_pure (t : TexTable) (h : validState t = true) :
    (TexTable.render t).1 = t ∧
    (TexTable.render ((TexTable.render t).1)).2 = (TexTable.render t).2 ∧
    (TexTable.render t).1.sig = t.sig ∧
    (TexTable.render t).1.table = t.table := by
  have hv := TexTable.validate_of_validState t h
  have hr : TexTable.render t = (t, TexTable.assemble t) := by
    unfold TexTable.render
    rw [hv]
  rw [hr]
  refine ⟨rfl, ?_, rfl, rfl⟩
  show (TexTable.render t).2 = (t, TexTable.assemble t).2
  rw [hr]

/-- C9 (witness): render purity at the concrete default table. -/
theorem c9_witness :
    validState exT = true ∧ (TexTable.render exT).1 = exT ∧
    (TexTable.render ((TexTable.render exT).1)).2 = (TexTable.render exT).2 := by
  have h : validState exT = true := by decide
  have hthm := c9_render_pure exT h
  exact ⟨h, hthm.1, hthm.2.1⟩

/-- C10: option setting is not atomic on failure. The single-option setter
stores the new value before validating, so when validation raises the
state retains the invalid value; the multi-option setter stores every
given known pair and validates once at the end, so when validation raises
(here on hline, the first structural check) all pairs, including the
never-checked invalid vline, remain stored. -/
theorem c10_nonatomic (t : TexTable) (a b : PyVal)
    (ha : pyMem a [.str ("all"), .str ("header"), .str ("none")] = false) :
    TexTable.setOption t ("hline") a =
      ({ t with options := { t.options with hline := a } }, some Err.valueHline) ∧
    TexTable.setOptions t [(("hline"), a), (("vline"), b)] =
      ({ t with options := { t.options with hline := a, vline := b } }, some Err.valueHline) := by
  constructor
  · have hset : t.options.setKey ("hline") a = some { t.options with hline := a } := rfl
    simp [TexTable.setOption, hset, TexTable.validate, TexTable.andThen, TexTable.checkHline, ha]
  · have h1 : Options.setKey t.options ("hline") a = some { t.options with hline := a } := rfl
    have h2 : Options.setKey { t.options with hline := a } ("vline") b =
        some { t.options with hline := a, vline := b } := rfl
    simp [TexTable.setOptions, List.foldl, h1, h2, TexTable.validate, TexTable.andThen,
      TexTable.checkHline, ha]

/-- C10 (witness): non-atomic failure at the concrete default table with
invalid hline and vline values. -/
theorem c10_witness :
    TexTable.setOption exT ("hline") (.str ("x")) =
      ({ exT with options := { exT.options with hline := .str ("x") } }, some Err.valueHline) ∧
    TexTable.setOptions exT [(("hline"), .str ("x")), (("vline"), .str ("y"))] =
      ({ exT with options := { exT.options with hline := .str ("x"), vline := .str ("y") } },
        some Err.valueHline) :=
  c10_nonatomic exT (.str ("x")) (.str ("y")) (by decide)
